import Mathlib

/-!
Verification development for the WhatsApp padel booking bot (`bot.py`).

The Python source is shallowly embedded below.  Conventions of the embedding:

* Machine integers and currency amounts are `Nat`; timestamps are `Int`
  seconds (the Python code compares `(ahora - desde).total_seconds() / 60`
  against a minute constant, which over whole-second timestamps is exactly
  `seconds > minutes * 60`).
* Fallible external calls are modelled explicitly:
  - the database (`supabase`) query underlying a function is an
    `Except Unit _` argument (`.error` = the query raised);
  - the insert performed by `crear_reserva` is an oracle
    `Draft → InsertOutcome` (success with a fresh row id, a 23505
    duplicate-key failure, or a generic failure);
  - the Gemini verdict of `verificar_comprobante` is a function
    `Nat → Verif` from the expected amount to the structured verdict
    (the handler calls it with the full remaining total and possibly with
    a single deposit);
  - the Mistral chat call is a function
    `List Mensaje → String × Option Accion`.
* Outbound WhatsApp messages (`enviar_mensaje_whatsapp` calls) are recorded
  as structured `Salida` values carrying exactly the dynamic data that the
  corresponding Python f-string interpolates.
* Session writes (`sesion_set` calls) are recorded in the result
  (`persistido` flag, or the written value itself for `sesion_get`).
-/

/-- A pending draft reservation, as stored in `sesion["reserva_pendiente"]`
(dict with keys fecha/hora/cancha_id/nombre/telefono). -/
structure Draft where
  fecha : String
  hora : String
  cancha_id : Nat
  nombre : String
  telefono : String
deriving DecidableEq

/-- A row of the `reservas` table, as built by `crear_reserva` (bot.py 102-121). -/
structure Reserva where
  id : Nat
  fecha : String
  hora : String
  cancha_id : Nat
  nombre_cliente : String
  telefono_cliente : String
  estado : String
  numero_operacion : Option String
deriving DecidableEq

/-- Return value of `ejecutar_accion`, one constructor per distinct result
string shape the dispatcher inspects. -/
inductive ResultadoAccion where
  | derivarHumano (motivo : String)
  | turnoPasado (hora : String) (ahoraMin : Nat)
  | canchaNoDisponible (cancha : Nat) (libres : List Nat)
  | canchaNoDisponibleNinguna (fecha hora : String)
  | canchaNoDisponibleLote (cancha : Nat) (hora : String) (libres : List Nat)
  | canchaNoDisponibleLoteNinguna (fecha hora : String)
  | reservaLista
  | multiplesReservasListas
  | sinReservasEspecificadas
deriving DecidableEq

/-- An entry of the conversation history.  The Python code stores role-tagged
dicts; the system-result turn wraps an action result in
`<RESULTADO_SISTEMA>...</RESULTADO_SISTEMA>`, kept structured here. -/
inductive Mensaje where
  | user (contenido : String)
  | assistant (contenido : String)
  | resultadoSistema (resultado : ResultadoAccion)
deriving DecidableEq

/-- Session state, the row of `sesiones_bot` (bot.py 191-235). -/
structure Sesion where
  esperando_comprobante : Bool
  reserva_pendiente : Option (List Draft)
  telefono_confirmado : Option String
  nombre_confirmado : Option String
  esperando_desde : Option Int
  historial : List Mensaje
deriving DecidableEq

/-- Python truthiness of an optional string (`None` and `""` are falsy). -/
def optTruthy : Option String → Bool
  | none => false
  | some s => s != ""

-- ── Club configuration (bot.py 60-83) ─────────────────────────────────────

/-- Court ids, the keys of the `CANCHAS` dict (iteration over the dict yields
its keys, which is how `canchas_libres` uses it). -/
def CANCHAS : List Nat := [1, 2, 3, 4]

def SENA_MONTO : Nat := 10000

def TIMEOUT_ESPERA_MINUTOS : Int := 60

-- ── Small string helpers ──────────────────────────────────────────────────

/-- `empiezaCon p l` : `p` is an initial segment of `l`. -/
def empiezaCon : List Char → List Char → Bool
  | [], _ => true
  | _ :: _, [] => false
  | a :: as, b :: bs => a == b && empiezaCon as bs

/-- `contieneSub p l` : `p` occurs as a contiguous sublist of `l`
(Python `p in s` on strings). -/
def contieneSub (p : List Char) : List Char → Bool
  | [] => p.isEmpty
  | c :: rest => empiezaCon p (c :: rest) || contieneSub p rest

/-- ASCII lowering, Python `str.lower()` for the ASCII keywords involved. -/
def minusculas (s : String) : String := s.map Char.toLower

/-- Parse `"HH:MM"` to minutes of the day (`datetime.strptime(h, "%H:%M")`
restricted to the well-formed five-character inputs the bot produces). -/
def horaMinutos (s : String) : Nat :=
  match s.data with
  | [h1, h2, _, m1, m2] =>
      ((h1.toNat - 48) * 10 + (h2.toNat - 48)) * 60
        + ((m1.toNat - 48) * 10 + (m2.toNat - 48))
  | _ => 0

-- ── Availability store (bot.py 87-100) ────────────────────────────────────

/-- `reservas_del_dia` (bot.py 87-92): rows with the given date; a failing
query is caught and yields `[]`. -/
def reservas_del_dia (db : Except Unit (List Reserva)) (fecha : String) :
    List Reserva :=
  match db with
  | .error _ => []
  | .ok rows => rows.filter (fun r => r.fecha == fecha)

/-- `canchas_libres` (bot.py 94-100): court ids with no non-cancelled
reservation at `(fecha, hora)`. -/
def canchas_libres (db : Except Unit (List Reserva)) (fecha hora : String) :
    List Nat :=
  let ocupadas := ((reservas_del_dia db fecha).filter
      (fun r => r.hora == hora && r.estado != "cancelada")).map
      (fun r => r.cancha_id)
  CANCHAS.filter (fun c => !(ocupadas.contains c))

/-- Outcome of the `supabase.table("reservas").insert(...)` call inside
`crear_reserva`: success returns the inserted row id; a unique-constraint
violation raises with "23505" in the message; anything else raises. -/
inductive InsertOutcome where
  | exito (id : Nat)
  | duplicado
  | fallo
deriving DecidableEq

/-- Result of `crear_reserva` (bot.py 102-121): the created row,
the literal `"DUPLICADO"` marker, or `None`. -/
inductive CrearRes where
  | creada (r : Reserva)
  | duplicadoMarca
  | nada
deriving DecidableEq

/-- `crear_reserva` (bot.py 102-121).  `numero_operacion` is attached to the
row only when truthy. -/
def crear_reserva (oracle : Draft → InsertOutcome) (d : Draft)
    (numero_operacion : Option String) : CrearRes :=
  match oracle d with
  | .exito id =>
      .creada
        { id := id
          fecha := d.fecha
          hora := d.hora
          cancha_id := d.cancha_id
          nombre_cliente := d.nombre
          telefono_cliente := d.telefono
          estado := "confirmada"
          numero_operacion :=
            if optTruthy numero_operacion then numero_operacion else none }
  | .duplicado => .duplicadoMarca
  | .fallo => .nada

/-- `operacion_ya_usada` (bot.py 153-166): non-cancelled rows carrying the
reference; a failing query is caught and yields `False`. -/
def operacion_ya_usada (db : Except Unit (List Reserva))
    (numero_operacion : String) : Bool :=
  match db with
  | .error _ => false
  | .ok rows =>
      ((rows.filter (fun r =>
          r.numero_operacion == some numero_operacion
            && r.estado != "cancelada")).length) > 0

-- ── Session store (bot.py 191-253) ────────────────────────────────────────

def sesionDefaults : Sesion :=
  { esperando_comprobante := false
    reserva_pendiente := none
    telefono_confirmado := none
    nombre_confirmado := none
    esperando_desde := none
    historial := [] }

/-- Result of `sesion_get`: the session handed to the caller, plus the value
written back through `sesion_set` when the timeout reset fired. -/
structure SesionLeida where
  sesion : Sesion
  persistida : Option Sesion
deriving DecidableEq

/-- `sesion_get` (bot.py 191-235).  `ahora` is the current timestamp in
seconds; `consulta` is the row lookup (`.error` = the query raised). -/
def sesion_get (ahora : Int) (consulta : Except Unit (Option Sesion)) :
    SesionLeida :=
  match consulta with
  | .error _ => ⟨sesionDefaults, none⟩
  | .ok none => ⟨sesionDefaults, none⟩
  | .ok (some s) =>
      match s.esperando_desde with
      | none => ⟨s, none⟩
      | some desde =>
          if s.esperando_comprobante
              ∧ ahora - desde > TIMEOUT_ESPERA_MINUTOS * 60 then
            let s2 :=
              { s with
                esperando_comprobante := false
                reserva_pendiente := none
                esperando_desde := none }
            ⟨s2, some s2⟩
          else ⟨s, none⟩

-- ── Structured actions and their execution (bot.py 460-569) ───────────────

/-- The `<ACCION>` payloads the handlers below dispatch on.  The remaining
action kinds (`consultar_disponibilidad`, `consultar_reservas`,
`cancelar_reserva`, `cancelar_multiples_reservas`, `ver_grilla`) are
informational: their results flow through the same generic rephrasing branch
of `manejar_mensaje_wa` and never change the booking state. -/
inductive Accion where
  | preparar_reserva (d : Draft)
  | preparar_multiples_reservas (reservas : List Draft)
  | derivar_humano (motivo : String)
deriving DecidableEq

/-- Per-draft validation of the `preparar_multiples_reservas` loop body
(bot.py 495-512): past-slot check first, then free-court check; `none` means
the draft passes. -/
def validarDraft (hoy : String) (ahoraMin : Nat)
    (db : Except Unit (List Reserva)) (r : Draft) : Option ResultadoAccion :=
  if r.fecha = hoy ∧ horaMinutos r.hora ≤ ahoraMin then
    some (.turnoPasado r.hora ahoraMin)
  else
    let libres := canchas_libres db r.fecha r.hora
    if libres.contains r.cancha_id then none
    else if libres.isEmpty then
      some (.canchaNoDisponibleLoteNinguna r.fecha r.hora)
    else some (.canchaNoDisponibleLote r.cancha_id r.hora libres)

/-- The `for r in reservas` loop of `preparar_multiples_reservas`
(bot.py 495-513): the first failing draft returns its rejection; an exhausted
loop returns `MULTIPLES_RESERVAS_LISTAS`. -/
def validarLote (hoy : String) (ahoraMin : Nat)
    (db : Except Unit (List Reserva)) : List Draft → ResultadoAccion
  | [] => .multiplesReservasListas
  | r :: rs =>
      match validarDraft hoy ahoraMin db r with
      | some falla => falla
      | none => validarLote hoy ahoraMin db rs

/-- `ejecutar_accion` (bot.py 460-569) for the modelled action kinds.
`hoy` is `hoy_argentina()`, `ahoraMin` the current local time in minutes of
the day (the Python code compares full datetimes on today's date, which is
the same comparison). -/
def ejecutar_accion (hoy : String) (ahoraMin : Nat)
    (db : Except Unit (List Reserva)) : Accion → ResultadoAccion
  | .derivar_humano motivo => .derivarHumano motivo
  | .preparar_reserva d =>
      if d.fecha = hoy ∧ horaMinutos d.hora ≤ ahoraMin then
        .turnoPasado d.hora ahoraMin
      else
        let libres := canchas_libres db d.fecha d.hora
        if libres.contains d.cancha_id then .reservaLista
        else if libres.isEmpty then .canchaNoDisponibleNinguna d.fecha d.hora
        else .canchaNoDisponible d.cancha_id libres
  | .preparar_multiples_reservas reservas =>
      if reservas.isEmpty then .sinReservasEspecificadas
      else validarLote hoy ahoraMin db reservas

-- ── Outbound messages ─────────────────────────────────────────────────────

/-- One `enviar_mensaje_whatsapp` call, with the dynamic data its text
interpolates. -/
inductive Salida where
  | cancelacionConfirmada
  | recordatorioComprobante
  | instruccionesSena
  | instruccionesSenaMultiple (cantidad : Nat) (montoTotal : Nat)
  | respuestaLlm (texto : String)
  | noEsperandoComprobante
  | problemaReservaPendiente
  | comprobanteRecibido
  | noDescargaImagen
  | comprobanteIlegible
  | comprobanteYaUtilizado
  | comprobanteDuplicadoEnCreacion
  | reservaConfirmada (r : Reserva)
  | reservasConfirmadas (rs : List Reserva)
  | errorGuardandoReserva
  | pagoParcialConfirmado (id : Nat) (fecha hora : String) (cancha : Nat)
      (cantidadRestante : Nat) (montoRestante : Nat)
  | pagoParcialError
  | comprobanteInvalido (motivo : String) (montoEsperado : Nat)
  | errorTecnicoVerificacion
deriving DecidableEq

-- ── Text-message handler (bot.py 608-739) ─────────────────────────────────

def palabrasCancelar : List String :=
  ["cancelar", "cancel", "no quiero", "olvidate", "dejalo",
   "salir", "no importa", "abort"]

/-- `any(p in texto_usuario.lower() for p in palabras_cancelar)`
(bot.py 615-619). -/
def contieneCancelacion (texto : String) : Bool :=
  palabrasCancelar.any (fun p => contieneSub p.data (minusculas texto).data)

/-- `historial[-20:]`. -/
def ultimos (n : Nat) (l : List Mensaje) : List Mensaje :=
  l.drop (l.length - n)

/-- The phone extracted from the action (bot.py 649-652): the `telefono`
key, falling back to the first element of `reservas`. -/
def telefonoDeAccion : Accion → Option String
  | .preparar_reserva d => some d.telefono
  | .preparar_multiples_reservas rs => rs.head?.map (fun d => d.telefono)
  | .derivar_humano _ => none

/-- The name extracted from the action (bot.py 650-654). -/
def nombreDeAccion : Accion → Option String
  | .preparar_reserva d => some d.nombre
  | .preparar_multiples_reservas rs => rs.head?.map (fun d => d.nombre)
  | .derivar_humano _ => none

/-- Sticky phone/name confirmation (bot.py 655-660): stored only when the
action carries a truthy value and the session has none yet. -/
def actualizarContacto (a : Accion) (s : Sesion) : Sesion :=
  let tel := telefonoDeAccion a
  let nom := nombreDeAccion a
  let s1 :=
    if optTruthy tel && !(optTruthy s.telefono_confirmado) then
      { s with telefono_confirmado := tel }
    else s
  if optTruthy nom && !(optTruthy s1.nombre_confirmado) then
    { s1 with nombre_confirmado := nom }
  else s1

/-- Observable outcome of one text turn: final session, whether `sesion_set`
ran, the messages sent, how many times `llamar_mistral` ran, and the rows
inserted through `crear_reserva` (the text path never inserts any). -/
structure TurnoResultado where
  sesion : Sesion
  persistido : Bool
  salidas : List Salida
  llmLlamadas : Nat
  creadas : List Reserva
deriving DecidableEq

/-- `manejar_mensaje_wa` (bot.py 608-739).  `llm` is `llamar_mistral` as a
function of the history (the system prompt is rebuilt from fixed context each
call).  `ahoraTs` is `ahora_arg()` as a timestamp, `ahoraMin` the same instant
as minutes of the day. -/
def manejar_mensaje_wa (hoy : String) (ahoraMin : Nat) (ahoraTs : Int)
    (db : Except Unit (List Reserva))
    (llm : List Mensaje → String × Option Accion)
    (sesion : Sesion) (texto_usuario : String) : TurnoResultado :=
  if sesion.esperando_comprobante then
    if contieneCancelacion texto_usuario then
      { sesion :=
          { sesion with
            esperando_comprobante := false
            reserva_pendiente := none
            historial := [] }
        persistido := true
        salidas := [.cancelacionConfirmada]
        llmLlamadas := 0
        creadas := [] }
    else
      { sesion := sesion
        persistido := false
        salidas := [.recordatorioComprobante]
        llmLlamadas := 0
        creadas := [] }
  else
    let hist1 := sesion.historial ++ [.user texto_usuario]
    let r1 := llm hist1
    let texto_respuesta := r1.1
    match r1.2 with
    | none =>
        let hist2 := hist1 ++ [.assistant texto_respuesta]
        { sesion := { sesion with historial := ultimos 20 hist2 }
          persistido := true
          salidas := [.respuestaLlm texto_respuesta]
          llmLlamadas := 1
          creadas := [] }
    | some accion =>
        let resultado := ejecutar_accion hoy ahoraMin db accion
        let sesion1 := actualizarContacto accion sesion
        match resultado, accion with
        | .reservaLista, .preparar_reserva d =>
            { sesion :=
                { sesion1 with
                  reserva_pendiente := some [d]
                  esperando_comprobante := true
                  esperando_desde := some ahoraTs
                  historial := [] }
              persistido := true
              salidas := [.instruccionesSena]
              llmLlamadas := 1
              creadas := [] }
        | .multiplesReservasListas, .preparar_multiples_reservas rs =>
            { sesion :=
                { sesion1 with
                  reserva_pendiente := some rs
                  esperando_comprobante := true
                  esperando_desde := some ahoraTs
                  historial := [] }
              persistido := true
              salidas :=
                [.instruccionesSenaMultiple rs.length (rs.length * SENA_MONTO)]
              llmLlamadas := 1
              creadas := [] }
        | .derivarHumano _, _ =>
            let hist2 := hist1 ++ [.assistant texto_respuesta]
            { sesion := { sesion1 with historial := ultimos 20 hist2 }
              persistido := true
              salidas := [.respuestaLlm texto_respuesta]
              llmLlamadas := 1
              creadas := [] }
        | r, _ =>
            -- CANCHA_NO_DISPONIBLE / TURNO_PASADO and the generic branch
            -- perform the same steps (bot.py 711-728): append the assistant
            -- text and the system result, call the model again, send its text.
            let hist2 := hist1
              ++ [.assistant texto_respuesta, .resultadoSistema r]
            let r2 := llm hist2
            let hist3 := hist2 ++ [.assistant r2.1]
            { sesion := { sesion1 with historial := ultimos 20 hist3 }
              persistido := true
              salidas := [.respuestaLlm r2.1]
              llmLlamadas := 2
              creadas := [] }

-- ── Image handler (bot.py 742-932) ────────────────────────────────────────

/-- The structured verdict of `verificar_comprobante` (bot.py 307-370). -/
structure Verif where
  valido : Bool
  ilegible : Bool
  motivo : String
  numero_operacion : Option String
deriving DecidableEq

/-- The technical-error keyword heuristic on the rejection reason
(bot.py 912). -/
def esErrorTecnico (motivo : String) : Bool :=
  contieneSub "error técnico".data (minusculas motivo).data
    || contieneSub "error interno".data (minusculas motivo).data
    || contieneSub "servicio".data (minusculas motivo).data

/-- The reuse guard `numero_operacion and operacion_ya_usada(numero_operacion)`
(bot.py 807): the query only runs for a truthy reference. -/
def chequeoReuso (opDb : Except Unit (List Reserva))
    (numero_operacion : Option String) : Bool :=
  match numero_operacion with
  | none => false
  | some s => s != "" && operacion_ya_usada opDb s

/-- The verification step of `manejar_foto_wa` (bot.py 784-792): verify
against the full remaining total, and if that is rejected (not illegible)
with more than one draft pending, retry against a single deposit and keep the
retry verdict when it is valid. -/
def resultadoVerificacion (verificar : Nat → Verif) (cantidad : Nat) : Verif :=
  let r0 := verificar (cantidad * SENA_MONTO)
  if !r0.valido && !r0.ilegible && cantidad > 1 then
    let rp := verificar SENA_MONTO
    if rp.valido then rp else r0
  else r0

/-- Observable outcome of one image turn. -/
structure FotoResultado where
  sesion : Sesion
  persistido : Bool
  salidas : List Salida
  creadas : List Reserva
deriving DecidableEq

/-- `manejar_foto_wa` (bot.py 742-932).  Arguments: whether
`descargar_imagen_whatsapp` returned bytes, the verifier verdict per expected
amount, the `reservas` snapshot seen by `operacion_ya_usada`, the insert
oracle, and the session as loaded by `sesion_get`.  The `reserva_pendiente`
dict-vs-list normalization (bot.py 765-766) is subsumed by the list type. -/
def manejar_foto_wa (descargaOk : Bool) (verificar : Nat → Verif)
    (opDb : Except Unit (List Reserva)) (oracle : Draft → InsertOutcome)
    (sesion : Sesion) : FotoResultado :=
  if sesion.esperando_comprobante then
    match sesion.reserva_pendiente with
    | none =>
        { sesion := { sesion with esperando_comprobante := false }
          persistido := true
          salidas := [.problemaReservaPendiente]
          creadas := [] }
    | some [] =>
        -- an empty stored list is falsy, same reset as `None`
        { sesion := { sesion with esperando_comprobante := false }
          persistido := true
          salidas := [.problemaReservaPendiente]
          creadas := [] }
    | some (p :: ps) =>
        let pendientes := p :: ps
        let cantidad := pendientes.length
        let montoEste := SENA_MONTO
        let montoTotal := cantidad * SENA_MONTO
        if !descargaOk then
          { sesion := sesion
            persistido := false
            salidas := [.comprobanteRecibido, .noDescargaImagen]
            creadas := [] }
        else
          let resultado := resultadoVerificacion verificar cantidad
          if resultado.ilegible then
            { sesion := sesion
              persistido := false
              salidas := [.comprobanteRecibido, .comprobanteIlegible]
              creadas := [] }
          else if resultado.valido then
            let numOp := resultado.numero_operacion
            if chequeoReuso opDb numOp then
              { sesion := sesion
                persistido := false
                salidas := [.comprobanteRecibido, .comprobanteYaUtilizado]
                creadas := [] }
            else if montoEste ≥ montoTotal ∨ cantidad = 1 then
              -- confirm every pending draft (bot.py 815-873)
              let resultados := pendientes.map (fun d => crear_reserva oracle d numOp)
              let creadas := resultados.filterMap
                (fun c => match c with | .creada r => some r | _ => none)
              let huboDuplicado := resultados.any
                (fun c => match c with | .duplicadoMarca => true | _ => false)
              if huboDuplicado then
                { sesion := sesion
                  persistido := false
                  salidas := [.comprobanteRecibido,
                              .comprobanteDuplicadoEnCreacion]
                  creadas := creadas }
              else
                match creadas with
                | [] =>
                    { sesion := sesion
                      persistido := false
                      salidas := [.comprobanteRecibido, .errorGuardandoReserva]
                      creadas := [] }
                | [r] =>
                    { sesion :=
                        { sesion with
                          esperando_comprobante := false
                          reserva_pendiente := none
                          telefono_confirmado := some p.telefono
                          historial := [] }
                      persistido := true
                      salidas := [.comprobanteRecibido, .reservaConfirmada r]
                      creadas := [r] }
                | r1 :: r2 :: resto =>
                    { sesion :=
                        { sesion with
                          esperando_comprobante := false
                          reserva_pendiente := none
                          telefono_confirmado := some p.telefono
                          historial := [] }
                      persistido := true
                      salidas := [.comprobanteRecibido,
                                  .reservasConfirmadas (r1 :: r2 :: resto)]
                      creadas := r1 :: r2 :: resto }
            else
              -- partial payment: confirm only the first pending draft
              -- (bot.py 874-907)
              let res1 := crear_reserva oracle p numOp
              let restantes := ps
              let sesion1 :=
                match res1 with
                | .creada _ =>
                    { sesion with
                      reserva_pendiente := some restantes
                      telefono_confirmado := some p.telefono
                      historial := [] }
                | _ =>
                    { sesion with
                      reserva_pendiente := some restantes
                      historial := [] }
              match res1 with
              | .creada r =>
                  { sesion := sesion1
                    persistido := true
                    salidas := [.comprobanteRecibido,
                      .pagoParcialConfirmado r.id p.fecha p.hora p.cancha_id
                        restantes.length (restantes.length * SENA_MONTO)]
                    creadas := [r] }
              | _ =>
                  { sesion := sesion1
                    persistido := true
                    salidas := [.comprobanteRecibido, .pagoParcialError]
                    creadas := [] }
          else
            if esErrorTecnico resultado.motivo then
              { sesion := sesion
                persistido := false
                salidas := [.comprobanteRecibido, .errorTecnicoVerificacion]
                creadas := [] }
            else
              { sesion := sesion
                persistido := false
                salidas := [.comprobanteRecibido,
                  .comprobanteInvalido resultado.motivo montoTotal]
                creadas := [] }
  else
    { sesion := sesion
      persistido := false
      salidas := [.noEsperandoComprobante]
      creadas := [] }

-- ── Webhook boundary (bot.py 950-987) ─────────────────────────────────────

/-- HTTP response of the webhook POST endpoint. -/
inductive RespuestaWebhook where
  | statusOk
  | httpError (codigo : Nat)
deriving DecidableEq

/-- `webhook_recibir` (bot.py 950-987).  `cuerpo` is `await request.json()`
(`.error` = the body is not valid JSON, which raises `HTTPException 400`);
`procesar` is the entry/changes/messages dispatch loop, whose exceptions are
caught and logged so that Meta always receives `{"status": "ok"}`. -/
def webhook_recibir {α : Type} (cuerpo : Except Unit α)
    (procesar : α → Except Unit Unit) : RespuestaWebhook :=
  match cuerpo with
  | .error _ => .httpError 400
  | .ok b =>
      match procesar b with
      | .ok _ => .statusOk
      | .error _ => .statusOk

-- ═══════════════════════════════════════════════════════════════════════════
-- Theorems about the claims
-- ═══════════════════════════════════════════════════════════════════════════

-- ── C3 ────────────────────────────────────────────────────────────────────

/-- C3: reading a session returns the defaults when none is stored; and a
stored session with `awaiting_proof = true` whose `awaiting_since` lies more
than 60 minutes before the read is returned with `awaiting_proof = false` and
the pending reservations cleared, and exactly this reset state is persisted
back to the store. -/
theorem sesion_get_defaults_y_timeout (ahora : Int) (s : Sesion) (t : Int)
    (hE : s.esperando_comprobante = true)
    (hD : s.esperando_desde = some t)
    (hT : ahora - t > TIMEOUT_ESPERA_MINUTOS * 60) :
    sesion_get ahora (Except.ok none) = ⟨sesionDefaults, none⟩ ∧
    (sesion_get ahora (Except.ok (some s))).sesion.esperando_comprobante
      = false ∧
    (sesion_get ahora (Except.ok (some s))).sesion.reserva_pendiente = none ∧
    (sesion_get ahora (Except.ok (some s))).persistida
      = some (sesion_get ahora (Except.ok (some s))).sesion := by
  refine ⟨rfl, ?_, ?_, ?_⟩ <;> simp [sesion_get, hD, hE, hT]

/-- Witness for `sesion_get_defaults_y_timeout` at a concrete session that has
been waiting 61 minutes. -/
theorem sesion_get_defaults_y_timeout_witness :
    sesion_get 3660 (Except.ok none) = ⟨sesionDefaults, none⟩ ∧
    (sesion_get 3660 (Except.ok (some
      ⟨true, some [⟨"2026-10-14", "10:00", 1, "Ana", "11"⟩], none, none,
       some 0, []⟩))).sesion.esperando_comprobante = false ∧
    (sesion_get 3660 (Except.ok (some
      ⟨true, some [⟨"2026-10-14", "10:00", 1, "Ana", "11"⟩], none, none,
       some 0, []⟩))).sesion.reserva_pendiente = none ∧
    (sesion_get 3660 (Except.ok (some
      ⟨true, some [⟨"2026-10-14", "10:00", 1, "Ana", "11"⟩], none, none,
       some 0, []⟩))).persistida
      = some (sesion_get 3660 (Except.ok (some
          ⟨true, some [⟨"2026-10-14", "10:00", 1, "Ana", "11"⟩], none, none,
           some 0, []⟩))).sesion := by
  exact sesion_get_defaults_y_timeout 3660 _ 0 rfl rfl (by decide)

-- ── C8 ────────────────────────────────────────────────────────────────────

/-- C8 counterexample: a POST body that is not valid JSON is answered with
`HTTPException 400`, not with a success status, so the claim quantified over
*any* POST body fails. -/
theorem webhook_cuerpo_invalido_no_ok :
    webhook_recibir (α := Unit) (Except.error ()) (fun _ => Except.ok ())
      = .httpError 400 ∧
    RespuestaWebhook.httpError 400 ≠ .statusOk := by
  exact ⟨rfl, by decide⟩

/-- C8 (amended): for every inbound POST whose body parses as JSON, the
endpoint acknowledges with a success status even when the internal message
processing raises an exception. -/
theorem webhook_siempre_ok_con_json {α : Type} (cuerpo : α)
    (procesar : α → Except Unit Unit) :
    webhook_recibir (Except.ok cuerpo) procesar = .statusOk := by
  cases h : procesar cuerpo <;> simp [webhook_recibir, h]

-- ── C10 ───────────────────────────────────────────────────────────────────

/-- C10: the reuse rejection fires only for a truthy (non-empty) extracted
reference — the guard is false for `none` and for the empty string; a valid
proof with no extracted reference proceeds straight to commit against *any*
reservations snapshot; and a failing store query inside `operacion_ya_usada`
yields `false`, so with a failing query even an actually-reused reference
passes and the commit proceeds. -/
theorem reuso_solo_con_referencia
    (verificar1 verificar2 : Nat → Verif) (opDb : Except Unit (List Reserva))
    (oracle : Draft → InsertOutcome) (p : Draft)
    (tel nom : Option String) (desde : Option Int) (hist : List Mensaje)
    (rid : Nat) (x : String)
    (h1v : (verificar1 SENA_MONTO).valido = true)
    (h1i : (verificar1 SENA_MONTO).ilegible = false)
    (h1n : (verificar1 SENA_MONTO).numero_operacion = none)
    (h2v : (verificar2 SENA_MONTO).valido = true)
    (h2i : (verificar2 SENA_MONTO).ilegible = false)
    (h2n : (verificar2 SENA_MONTO).numero_operacion = some x)
    (hx : x ≠ "")
    (hOr : oracle p = .exito rid) :
    (∀ n, operacion_ya_usada (Except.error ()) n = false) ∧
    (∀ db, chequeoReuso db none = false) ∧
    (∀ db, chequeoReuso db (some "") = false) ∧
    (manejar_foto_wa true verificar1 opDb oracle
        ⟨true, some [p], tel, nom, desde, hist⟩).salidas
      = [.comprobanteRecibido, .reservaConfirmada
          ⟨rid, p.fecha, p.hora, p.cancha_id, p.nombre, p.telefono,
           "confirmada", none⟩] ∧
    (manejar_foto_wa true verificar1 opDb oracle
        ⟨true, some [p], tel, nom, desde, hist⟩).sesion.esperando_comprobante
      = false ∧
    (manejar_foto_wa true verificar2 (Except.error ()) oracle
        ⟨true, some [p], tel, nom, desde, hist⟩).salidas
      = [.comprobanteRecibido, .reservaConfirmada
          ⟨rid, p.fecha, p.hora, p.cancha_id, p.nombre, p.telefono,
           "confirmada", some x⟩] := by
  refine ⟨fun n => rfl, fun db => rfl, fun db => by simp [chequeoReuso], ?_, ?_, ?_⟩
  · simp [manejar_foto_wa, resultadoVerificacion, h1v, h1i, h1n, chequeoReuso, crear_reserva, hOr,
          optTruthy]
  · simp [manejar_foto_wa, resultadoVerificacion, h1v, h1i, h1n, chequeoReuso, crear_reserva, hOr,
          optTruthy]
  · simp [manejar_foto_wa, resultadoVerificacion, h2v, h2i, h2n, chequeoReuso, operacion_ya_usada,
          crear_reserva, hOr, optTruthy, hx]

def c10v1 : Nat → Verif := fun _ => ⟨true, false, "ok", none⟩

def c10v2 : Nat → Verif := fun _ => ⟨true, false, "ok", some "OPX"⟩

/-- A snapshot in which the reference `"OPX"` is already attached to a
non-cancelled reservation. -/
def c10db : Except Unit (List Reserva) :=
  Except.ok [⟨1, "2026-10-01", "10:00", 1, "Bob", "22", "confirmada",
             some "OPX"⟩]

def c10oracle : Draft → InsertOutcome := fun _ => .exito 7

def c10p : Draft := ⟨"2026-10-15", "10:00", 1, "Ana Perez", "111"⟩

/-- Witness for `reuso_solo_con_referencia` at concrete inputs: with no
extracted reference the commit happens even against a snapshot where a
reference is in use, and with a failing query a reused reference passes. -/
theorem reuso_solo_con_referencia_witness :
    (∀ n, operacion_ya_usada (Except.error ()) n = false) ∧
    (∀ db, chequeoReuso db none = false) ∧
    (∀ db, chequeoReuso db (some "") = false) ∧
    (manejar_foto_wa true c10v1 c10db c10oracle
        ⟨true, some [c10p], none, none, none, []⟩).salidas
      = [.comprobanteRecibido, .reservaConfirmada
          ⟨7, c10p.fecha, c10p.hora, c10p.cancha_id, c10p.nombre,
           c10p.telefono, "confirmada", none⟩] ∧
    (manejar_foto_wa true c10v1 c10db c10oracle
        ⟨true, some [c10p], none, none, none, []⟩).sesion.esperando_comprobante
      = false ∧
    (manejar_foto_wa true c10v2 (Except.error ()) c10oracle
        ⟨true, some [c10p], none, none, none, []⟩).salidas
      = [.comprobanteRecibido, .reservaConfirmada
          ⟨7, c10p.fecha, c10p.hora, c10p.cancha_id, c10p.nombre,
           c10p.telefono, "confirmada", some "OPX"⟩] :=
  reuso_solo_con_referencia c10v1 c10v2 c10db c10oracle c10p none none none []
    7 "OPX" rfl rfl rfl rfl rfl rfl (by decide) rfl

-- ── C1 ────────────────────────────────────────────────────────────────────

def c1draftA : Draft := ⟨"2026-10-13", "10:00", 1, "Ana Perez", "1111"⟩

def c1draftB : Draft := ⟨"2026-10-13", "11:30", 2, "Ana Perez", "1111"⟩

/-- A verifier that accepts exactly the full remaining total of the two
pending drafts (2 × $10.000) with a fresh reference. -/
def c1verificar : Nat → Verif := fun m =>
  if m = 20000 then ⟨true, false, "ok", some "OP900"⟩
  else ⟨false, false, "monto incorrecto", none⟩

def c1oracle : Draft → InsertOutcome := fun d =>
  if d = c1draftA then .exito 41 else .exito 42

def c1sesion : Sesion :=
  { esperando_comprobante := true
    reserva_pendiente := some [c1draftA, c1draftB]
    telefono_confirmado := none
    nombre_confirmado := none
    esperando_desde := some 0
    historial := [] }

/-- C1 (code bug): a session awaiting proof with two pending drafts receives
a proof verified as valid for the full remaining total (2 × D = $20.000) with
an unused operation reference, against a store with no used references and
succeeding inserts — yet the code commits only the *first* draft, keeps the
session in AWAITING_PROOF with the second draft still pending, and replies
that one more deposit of $10.000 is owed.  The claim (and bot.py's own
deposit-instructions message, lines 694-697) say a single transfer of the
full total confirms *all* drafts and the session returns to IDLE.  Cause:
`monto_este_comprobante` is initialized to `SENA_MONTO` (bot.py 770) and is
never set to the verified total, so the settlement condition at line 815 can
only hold when a single draft remains. -/
theorem pago_total_confirma_solo_primera :
    (manejar_foto_wa true c1verificar (Except.ok []) c1oracle c1sesion).creadas
      = [⟨41, "2026-10-13", "10:00", 1, "Ana Perez", "1111", "confirmada",
          some "OP900"⟩] ∧
    (manejar_foto_wa true c1verificar (Except.ok []) c1oracle
        c1sesion).sesion.esperando_comprobante = true ∧
    (manejar_foto_wa true c1verificar (Except.ok []) c1oracle
        c1sesion).sesion.reserva_pendiente = some [c1draftB] ∧
    (manejar_foto_wa true c1verificar (Except.ok []) c1oracle c1sesion).salidas
      = [.comprobanteRecibido,
         .pagoParcialConfirmado 41 "2026-10-13" "10:00" 1 1 10000] := by
  refine ⟨?_, ?_, ?_, ?_⟩ <;> decide

-- ── C2 ────────────────────────────────────────────────────────────────────

/-- C2: in AWAITING_PROOF with more than one pending draft, a proof rejected
against the full remaining total but re-verified as valid for a single
deposit commits exactly the first pending draft, shrinks the pending list by
removing it, keeps the session in AWAITING_PROOF, persists it, and reports
the confirmed reservation together with the remaining count and the amount
still owed (`remaining × D`). -/
theorem pago_parcial_confirma_primera
    (verificar : Nat → Verif) (opDb : Except Unit (List Reserva))
    (oracle : Draft → InsertOutcome)
    (tel nom : Option String) (desde : Option Int) (hist : List Mensaje)
    (p : Draft) (ps : List Draft) (rid : Nat)
    (hps : ps ≠ [])
    (hTv : (verificar ((p :: ps).length * SENA_MONTO)).valido = false)
    (hTi : (verificar ((p :: ps).length * SENA_MONTO)).ilegible = false)
    (hPv : (verificar SENA_MONTO).valido = true)
    (hPi : (verificar SENA_MONTO).ilegible = false)
    (hOp : chequeoReuso opDb (verificar SENA_MONTO).numero_operacion = false)
    (hIns : oracle p = .exito rid) :
    (manejar_foto_wa true verificar opDb oracle
        ⟨true, some (p :: ps), tel, nom, desde, hist⟩).sesion.esperando_comprobante
      = true ∧
    (manejar_foto_wa true verificar opDb oracle
        ⟨true, some (p :: ps), tel, nom, desde, hist⟩).sesion.reserva_pendiente
      = some ps ∧
    (manejar_foto_wa true verificar opDb oracle
        ⟨true, some (p :: ps), tel, nom, desde, hist⟩).persistido = true ∧
    (manejar_foto_wa true verificar opDb oracle
        ⟨true, some (p :: ps), tel, nom, desde, hist⟩).creadas
      = [⟨rid, p.fecha, p.hora, p.cancha_id, p.nombre, p.telefono,
          "confirmada",
          if optTruthy (verificar SENA_MONTO).numero_operacion then
            (verificar SENA_MONTO).numero_operacion
          else none⟩] ∧
    (manejar_foto_wa true verificar opDb oracle
        ⟨true, some (p :: ps), tel, nom, desde, hist⟩).salidas
      = [.comprobanteRecibido,
         .pagoParcialConfirmado rid p.fecha p.hora p.cancha_id
           ps.length (ps.length * SENA_MONTO)] := by
  cases ps with
  | nil => exact absurd rfl hps
  | cons q qs =>
    simp only [List.length_cons] at hTv hTi
    have h815 : ¬((qs.length + 1 + 1) * SENA_MONTO ≤ SENA_MONTO) := by
      simp only [SENA_MONTO]
      omega
    refine ⟨?_, ?_, ?_, ?_, ?_⟩ <;>
      simp [manejar_foto_wa, resultadoVerificacion, hTv, hTi, hPv, hPi, hOp, hIns, h815,
            crear_reserva]

def c2dA : Draft := ⟨"2026-10-20", "10:00", 1, "Ana Perez", "1111"⟩

def c2dB : Draft := ⟨"2026-10-20", "11:30", 2, "Ana Perez", "1111"⟩

def c2dC : Draft := ⟨"2026-10-21", "10:00", 3, "Ana Perez", "1111"⟩

/-- A verifier that rejects the full total ($30.000) but accepts a single
deposit of exactly $10.000. -/
def c2verificar : Nat → Verif := fun m =>
  if m = 10000 then ⟨true, false, "ok", some "OP1"⟩
  else ⟨false, false, "monto incorrecto", none⟩

def c2oracle : Draft → InsertOutcome := fun d =>
  if d = c2dA then .exito 51 else .fallo

/-- Witness for `pago_parcial_confirma_primera`: 3 pending drafts at deposit
$10.000 each and a proof valid for exactly one deposit — draft #1 alone is
confirmed, 2 drafts remain pending, and the reported remaining amount is
2 × $10.000 = $20.000. -/
theorem pago_parcial_confirma_primera_witness :
    (manejar_foto_wa true c2verificar (Except.ok []) c2oracle
        ⟨true, some [c2dA, c2dB, c2dC], none, none, some 0,
         []⟩).sesion.esperando_comprobante = true ∧
    (manejar_foto_wa true c2verificar (Except.ok []) c2oracle
        ⟨true, some [c2dA, c2dB, c2dC], none, none, some 0,
         []⟩).sesion.reserva_pendiente = some [c2dB, c2dC] ∧
    (manejar_foto_wa true c2verificar (Except.ok []) c2oracle
        ⟨true, some [c2dA, c2dB, c2dC], none, none, some 0,
         []⟩).persistido = true ∧
    (manejar_foto_wa true c2verificar (Except.ok []) c2oracle
        ⟨true, some [c2dA, c2dB, c2dC], none, none, some 0, []⟩).creadas
      = [⟨51, "2026-10-20", "10:00", 1, "Ana Perez", "1111", "confirmada",
          some "OP1"⟩] ∧
    (manejar_foto_wa true c2verificar (Except.ok []) c2oracle
        ⟨true, some [c2dA, c2dB, c2dC], none, none, some 0, []⟩).salidas
      = [.comprobanteRecibido,
         .pagoParcialConfirmado 51 "2026-10-20" "10:00" 1 2 20000] := by
  simpa using pago_parcial_confirma_primera c2verificar (Except.ok [])
    c2oracle none none (some 0) [] c2dA [c2dB, c2dC] 51
    (by decide) (by decide) (by decide) (by decide) (by decide) (by decide)
    (by decide)

-- ── C9 ────────────────────────────────────────────────────────────────────

/-- C9: in the partial-payment branch (proof rejected for the full total,
re-verified valid for one deposit, more than one draft pending), the session
is rewritten — first draft removed from the pending list, history cleared —
and persisted even when the reservation insert fails or reports a duplicate
slot: the first draft is dropped although no reservation was created for it,
and the session stays in AWAITING_PROOF. -/
theorem pago_parcial_pierde_draft_en_error
    (verificar : Nat → Verif) (opDb : Except Unit (List Reserva))
    (oracle : Draft → InsertOutcome)
    (tel nom : Option String) (desde : Option Int) (hist : List Mensaje)
    (p : Draft) (ps : List Draft)
    (hps : ps ≠ [])
    (hTv : (verificar ((p :: ps).length * SENA_MONTO)).valido = false)
    (hTi : (verificar ((p :: ps).length * SENA_MONTO)).ilegible = false)
    (hPv : (verificar SENA_MONTO).valido = true)
    (hPi : (verificar SENA_MONTO).ilegible = false)
    (hOp : chequeoReuso opDb (verificar SENA_MONTO).numero_operacion = false)
    (hIns : oracle p = .duplicado ∨ oracle p = .fallo) :
    (manejar_foto_wa true verificar opDb oracle
        ⟨true, some (p :: ps), tel, nom, desde, hist⟩).creadas = [] ∧
    (manejar_foto_wa true verificar opDb oracle
        ⟨true, some (p :: ps), tel, nom, desde, hist⟩).sesion.reserva_pendiente
      = some ps ∧
    (manejar_foto_wa true verificar opDb oracle
        ⟨true, some (p :: ps), tel, nom, desde, hist⟩).sesion.historial = [] ∧
    (manejar_foto_wa true verificar opDb oracle
        ⟨true, some (p :: ps), tel, nom, desde, hist⟩).sesion.esperando_comprobante
      = true ∧
    (manejar_foto_wa true verificar opDb oracle
        ⟨true, some (p :: ps), tel, nom, desde, hist⟩).persistido = true ∧
    (manejar_foto_wa true verificar opDb oracle
        ⟨true, some (p :: ps), tel, nom, desde, hist⟩).salidas
      = [.comprobanteRecibido, .pagoParcialError] := by
  cases ps with
  | nil => exact absurd rfl hps
  | cons q qs =>
    simp only [List.length_cons] at hTv hTi
    have h815 : ¬((qs.length + 1 + 1) * SENA_MONTO ≤ SENA_MONTO) := by
      simp only [SENA_MONTO]
      omega
    cases hIns with
    | inl hDup =>
        refine ⟨?_, ?_, ?_, ?_, ?_, ?_⟩ <;>
          simp [manejar_foto_wa, resultadoVerificacion, hTv, hTi, hPv, hPi, hOp, hDup, h815,
                crear_reserva]
    | inr hFal =>
        refine ⟨?_, ?_, ?_, ?_, ?_, ?_⟩ <;>
          simp [manejar_foto_wa, resultadoVerificacion, hTv, hTi, hPv, hPi, hOp, hFal, h815,
                crear_reserva]

def c9oracle : Draft → InsertOutcome := fun d =>
  if d = c2dA then .duplicado else .exito 60

/-- Witness for `pago_parcial_pierde_draft_en_error`: the insert for the
first draft reports a duplicate slot, yet the draft is removed from the
pending list with no reservation created. -/
theorem pago_parcial_pierde_draft_en_error_witness :
    (manejar_foto_wa true c2verificar (Except.ok []) c9oracle
        ⟨true, some [c2dA, c2dB, c2dC], none, none, some 0, []⟩).creadas
      = [] ∧
    (manejar_foto_wa true c2verificar (Except.ok []) c9oracle
        ⟨true, some [c2dA, c2dB, c2dC], none, none, some 0,
         []⟩).sesion.reserva_pendiente = some [c2dB, c2dC] ∧
    (manejar_foto_wa true c2verificar (Except.ok []) c9oracle
        ⟨true, some [c2dA, c2dB, c2dC], none, none, some 0,
         []⟩).sesion.historial = [] ∧
    (manejar_foto_wa true c2verificar (Except.ok []) c9oracle
        ⟨true, some [c2dA, c2dB, c2dC], none, none, some 0,
         []⟩).sesion.esperando_comprobante = true ∧
    (manejar_foto_wa true c2verificar (Except.ok []) c9oracle
        ⟨true, some [c2dA, c2dB, c2dC], none, none, some 0,
         []⟩).persistido = true ∧
    (manejar_foto_wa true c2verificar (Except.ok []) c9oracle
        ⟨true, some [c2dA, c2dB, c2dC], none, none, some 0, []⟩).salidas
      = [.comprobanteRecibido, .pagoParcialError] := by
  simpa using pago_parcial_pierde_draft_en_error c2verificar (Except.ok [])
    c9oracle none none (some 0) [] c2dA [c2dB, c2dC]
    (by decide) (by decide) (by decide) (by decide) (by decide) (by decide)
    (Or.inl (by decide))

-- ── C4 ────────────────────────────────────────────────────────────────────

/-- C4: an inbound text while awaiting proof triggers exactly one of two
reactions, and the language model is never called: a cancellation-keyword
match resets the session to IDLE (awaiting flag off, pending drafts and
history cleared, the rest untouched), persists it and sends the cancellation
confirmation; any other text leaves the session exactly as it was, persists
nothing, and sends the reminder that a proof image is expected. -/
theorem texto_en_espera_solo_dos_reacciones
    (hoy : String) (am : Nat) (ts : Int) (db : Except Unit (List Reserva))
    (llm : List Mensaje → String × Option Accion)
    (s : Sesion) (texto : String)
    (hE : s.esperando_comprobante = true) :
    (manejar_mensaje_wa hoy am ts db llm s texto).llmLlamadas = 0 ∧
    (contieneCancelacion texto = true →
      (manejar_mensaje_wa hoy am ts db llm s texto).sesion.esperando_comprobante
          = false ∧
      (manejar_mensaje_wa hoy am ts db llm s texto).sesion.reserva_pendiente
          = none ∧
      (manejar_mensaje_wa hoy am ts db llm s texto).sesion.historial = [] ∧
      (manejar_mensaje_wa hoy am ts db llm s texto).sesion.telefono_confirmado
          = s.telefono_confirmado ∧
      (manejar_mensaje_wa hoy am ts db llm s texto).persistido = true ∧
      (manejar_mensaje_wa hoy am ts db llm s texto).salidas
          = [.cancelacionConfirmada]) ∧
    (contieneCancelacion texto = false →
      (manejar_mensaje_wa hoy am ts db llm s texto).sesion = s ∧
      (manejar_mensaje_wa hoy am ts db llm s texto).persistido = false ∧
      (manejar_mensaje_wa hoy am ts db llm s texto).salidas
          = [.recordatorioComprobante]) := by
  by_cases hc : contieneCancelacion texto <;>
    simp [manejar_mensaje_wa, hE, hc]

/-- Witness for `texto_en_espera_solo_dos_reacciones` at a concrete awaiting
session and the text `"cancelar"`. -/
theorem texto_en_espera_solo_dos_reacciones_witness :
    (manejar_mensaje_wa "2026-10-14" 600 0 (Except.ok [])
        (fun _ => ("", none))
        ⟨true, some [c2dA], some "1111", none, some 0, []⟩
        "cancelar").llmLlamadas = 0 ∧
    (contieneCancelacion "cancelar" = true →
      (manejar_mensaje_wa "2026-10-14" 600 0 (Except.ok [])
          (fun _ => ("", none))
          ⟨true, some [c2dA], some "1111", none, some 0, []⟩
          "cancelar").sesion.esperando_comprobante = false ∧
      (manejar_mensaje_wa "2026-10-14" 600 0 (Except.ok [])
          (fun _ => ("", none))
          ⟨true, some [c2dA], some "1111", none, some 0, []⟩
          "cancelar").sesion.reserva_pendiente = none ∧
      (manejar_mensaje_wa "2026-10-14" 600 0 (Except.ok [])
          (fun _ => ("", none))
          ⟨true, some [c2dA], some "1111", none, some 0, []⟩
          "cancelar").sesion.historial = [] ∧
      (manejar_mensaje_wa "2026-10-14" 600 0 (Except.ok [])
          (fun _ => ("", none))
          ⟨true, some [c2dA], some "1111", none, some 0, []⟩
          "cancelar").sesion.telefono_confirmado = some "1111" ∧
      (manejar_mensaje_wa "2026-10-14" 600 0 (Except.ok [])
          (fun _ => ("", none))
          ⟨true, some [c2dA], some "1111", none, some 0, []⟩
          "cancelar").persistido = true ∧
      (manejar_mensaje_wa "2026-10-14" 600 0 (Except.ok [])
          (fun _ => ("", none))
          ⟨true, some [c2dA], some "1111", none, some 0, []⟩
          "cancelar").salidas = [.cancelacionConfirmada]) ∧
    (contieneCancelacion "cancelar" = false →
      (manejar_mensaje_wa "2026-10-14" 600 0 (Except.ok [])
          (fun _ => ("", none))
          ⟨true, some [c2dA], some "1111", none, some 0, []⟩
          "cancelar").sesion
        = ⟨true, some [c2dA], some "1111", none, some 0, []⟩ ∧
      (manejar_mensaje_wa "2026-10-14" 600 0 (Except.ok [])
          (fun _ => ("", none))
          ⟨true, some [c2dA], some "1111", none, some 0, []⟩
          "cancelar").persistido = false ∧
      (manejar_mensaje_wa "2026-10-14" 600 0 (Except.ok [])
          (fun _ => ("", none))
          ⟨true, some [c2dA], some "1111", none, some 0, []⟩
          "cancelar").salidas = [.recordatorioComprobante]) :=
  texto_en_espera_solo_dos_reacciones "2026-10-14" 600 0 (Except.ok [])
    (fun _ => ("", none))
    ⟨true, some [c2dA], some "1111", none, some 0, []⟩ "cancelar" rfl

-- ── Helper lemmas: the sticky contact update touches no booking state ─────

theorem actualizarContacto_esperando (a : Accion) (s : Sesion) :
    (actualizarContacto a s).esperando_comprobante = s.esperando_comprobante := by
  simp only [actualizarContacto]
  split <;> split <;> rfl

theorem actualizarContacto_pendiente (a : Accion) (s : Sesion) :
    (actualizarContacto a s).reserva_pendiente = s.reserva_pendiente := by
  simp only [actualizarContacto]
  split <;> split <;> rfl

theorem actualizarContacto_desde (a : Accion) (s : Sesion) :
    (actualizarContacto a s).esperando_desde = s.esperando_desde := by
  simp only [actualizarContacto]
  split <;> split <;> rfl

-- ── C5 ────────────────────────────────────────────────────────────────────

/-- C5: a prepare-single-reservation action dated today with a time strictly
before the current local time is rejected with the slot-already-past outcome
for *every* reservations snapshot (so the availability check is irrelevant);
the head draft of a batch is rejected the same way; and the orchestrator turn
carrying such an action leaves the booking state of the session — awaiting
flag, pending drafts, awaiting-since — unchanged and creates no reservation
(the rejection is appended to the history and the model is re-invoked to
rephrase it, which is the reply sent). -/
theorem turno_pasado_rechaza_sin_consultar
    (hoy : String) (am : Nat) (ts : Int) (db : Except Unit (List Reserva))
    (llm : List Mensaje → String × Option Accion)
    (s : Sesion) (texto : String) (d : Draft) (rs : List Draft)
    (hF : d.fecha = hoy) (hH : horaMinutos d.hora < am)
    (hS : s.esperando_comprobante = false)
    (hLlm : (llm (s.historial ++ [.user texto])).2
        = some (.preparar_reserva d)) :
    (∀ db2 : Except Unit (List Reserva),
      ejecutar_accion hoy am db2 (.preparar_reserva d)
        = .turnoPasado d.hora am) ∧
    (∀ db2 : Except Unit (List Reserva),
      ejecutar_accion hoy am db2 (.preparar_multiples_reservas (d :: rs))
        = .turnoPasado d.hora am) ∧
    (manejar_mensaje_wa hoy am ts db llm s texto).sesion.esperando_comprobante
      = s.esperando_comprobante ∧
    (manejar_mensaje_wa hoy am ts db llm s texto).sesion.reserva_pendiente
      = s.reserva_pendiente ∧
    (manejar_mensaje_wa hoy am ts db llm s texto).sesion.esperando_desde
      = s.esperando_desde ∧
    (manejar_mensaje_wa hoy am ts db llm s texto).creadas = [] ∧
    (manejar_mensaje_wa hoy am ts db llm s texto).llmLlamadas = 2 := by
  have hres : ∀ db2 : Except Unit (List Reserva),
      ejecutar_accion hoy am db2 (.preparar_reserva d)
        = .turnoPasado d.hora am := by
    intro db2
    simp [ejecutar_accion, hF, Nat.le_of_lt hH]
  have hlote : ∀ db2 : Except Unit (List Reserva),
      ejecutar_accion hoy am db2 (.preparar_multiples_reservas (d :: rs))
        = .turnoPasado d.hora am := by
    intro db2
    simp [ejecutar_accion, validarLote, validarDraft, hF, Nat.le_of_lt hH]
  refine ⟨hres, hlote, ?_, ?_, ?_, ?_, ?_⟩ <;>
    simp [manejar_mensaje_wa, hS, hLlm, hres db,
          actualizarContacto_esperando, actualizarContacto_pendiente,
          actualizarContacto_desde]

def c5d : Draft := ⟨"2026-10-14", "10:00", 1, "Ana Perez", "1111"⟩

/-- Witness for `turno_pasado_rechaza_sin_consultar`: today at 11:40 local
time (700 minutes), an action for today 10:00 — even with a snapshot where
every court is free — is rejected as past and the idle session's booking
state is untouched. -/
theorem turno_pasado_rechaza_sin_consultar_witness :
    (∀ db2 : Except Unit (List Reserva),
      ejecutar_accion "2026-10-14" 700 db2 (.preparar_reserva c5d)
        = .turnoPasado "10:00" 700) ∧
    (∀ db2 : Except Unit (List Reserva),
      ejecutar_accion "2026-10-14" 700 db2
          (.preparar_multiples_reservas [c5d])
        = .turnoPasado "10:00" 700) ∧
    (manejar_mensaje_wa "2026-10-14" 700 0 (Except.ok [])
        (fun _ => ("ok", some (.preparar_reserva c5d)))
        ⟨false, none, none, none, none, []⟩
        "quiero hoy a las 10").sesion.esperando_comprobante = false ∧
    (manejar_mensaje_wa "2026-10-14" 700 0 (Except.ok [])
        (fun _ => ("ok", some (.preparar_reserva c5d)))
        ⟨false, none, none, none, none, []⟩
        "quiero hoy a las 10").sesion.reserva_pendiente = none ∧
    (manejar_mensaje_wa "2026-10-14" 700 0 (Except.ok [])
        (fun _ => ("ok", some (.preparar_reserva c5d)))
        ⟨false, none, none, none, none, []⟩
        "quiero hoy a las 10").sesion.esperando_desde = none ∧
    (manejar_mensaje_wa "2026-10-14" 700 0 (Except.ok [])
        (fun _ => ("ok", some (.preparar_reserva c5d)))
        ⟨false, none, none, none, none, []⟩
        "quiero hoy a las 10").creadas = [] ∧
    (manejar_mensaje_wa "2026-10-14" 700 0 (Except.ok [])
        (fun _ => ("ok", some (.preparar_reserva c5d)))
        ⟨false, none, none, none, none, []⟩
        "quiero hoy a las 10").llmLlamadas = 2 := by
  simpa using turno_pasado_rechaza_sin_consultar "2026-10-14" 700 0
    (Except.ok []) (fun _ => ("ok", some (.preparar_reserva c5d)))
    ⟨false, none, none, none, none, []⟩ "quiero hoy a las 10" c5d []
    rfl (by decide) rfl rfl

-- ── C6 ────────────────────────────────────────────────────────────────────

/-- The batch loop returns the rejection of the first failing draft: every
draft before it passes, so the loop reaches it and stops there. -/
theorem validarLote_primer_fallo (hoy : String) (am : Nat)
    (db : Except Unit (List Reserva)) (pre : List Draft) (bad : Draft)
    (rest : List Draft) (falla : ResultadoAccion)
    (hpre : ∀ r ∈ pre, validarDraft hoy am db r = none)
    (hbad : validarDraft hoy am db bad = some falla) :
    validarLote hoy am db (pre ++ bad :: rest) = falla := by
  induction pre with
  | nil => simp [validarLote, hbad]
  | cons a as ih =>
      have ha := hpre a (List.mem_cons_self a as)
      simp only [List.cons_append, validarLote, ha]
      exact ih (fun r hr => hpre r (List.mem_cons_of_mem a hr))

/-- A draft rejection produced by the batch validation is one of the three
rejection shapes — never an acceptance result. -/
theorem validarDraft_formas (hoy : String) (am : Nat)
    (db : Except Unit (List Reserva)) (r : Draft) (falla : ResultadoAccion)
    (h : validarDraft hoy am db r = some falla) :
    falla = .turnoPasado r.hora am ∨
    (∃ l, falla = .canchaNoDisponibleLote r.cancha_id r.hora l) ∨
    falla = .canchaNoDisponibleLoteNinguna r.fecha r.hora := by
  unfold validarDraft at h
  split at h
  · exact Or.inl (by simpa using h.symm)
  · dsimp only at h
    split at h
    · exact absurd h (by simp)
    · split at h
      · exact Or.inr (Or.inr (by simpa using h.symm))
      · exact Or.inr (Or.inl ⟨_, (by simpa using h.symm)⟩)

/-- C6: in a batch-preparation action the drafts are validated in list order
and the first failing draft aborts the whole batch with that draft's
rejection; on the orchestrator turn carrying such a batch no reservation is
created, the session does not enter AWAITING_PROOF, and no pending drafts are
recorded. -/
theorem lote_primer_fallo_aborta
    (hoy : String) (am : Nat) (ts : Int) (db : Except Unit (List Reserva))
    (llm : List Mensaje → String × Option Accion)
    (s : Sesion) (texto : String)
    (pre : List Draft) (bad : Draft) (rest : List Draft)
    (falla : ResultadoAccion)
    (hS : s.esperando_comprobante = false)
    (hpre : ∀ r ∈ pre, validarDraft hoy am db r = none)
    (hbad : validarDraft hoy am db bad = some falla)
    (hLlm : (llm (s.historial ++ [.user texto])).2
        = some (.preparar_multiples_reservas (pre ++ bad :: rest))) :
    ejecutar_accion hoy am db
        (.preparar_multiples_reservas (pre ++ bad :: rest)) = falla ∧
    (manejar_mensaje_wa hoy am ts db llm s texto).sesion.esperando_comprobante
      = false ∧
    (manejar_mensaje_wa hoy am ts db llm s texto).sesion.reserva_pendiente
      = s.reserva_pendiente ∧
    (manejar_mensaje_wa hoy am ts db llm s texto).sesion.esperando_desde
      = s.esperando_desde ∧
    (manejar_mensaje_wa hoy am ts db llm s texto).creadas = [] := by
  have hne : (pre ++ bad :: rest).isEmpty = false := by
    cases pre <;> simp
  have hres : ejecutar_accion hoy am db
      (.preparar_multiples_reservas (pre ++ bad :: rest)) = falla := by
    simp only [ejecutar_accion, hne, Bool.false_eq_true, if_false]
    exact validarLote_primer_fallo hoy am db pre bad rest falla hpre hbad
  refine ⟨hres, ?_, ?_, ?_, ?_⟩ <;>
    rcases validarDraft_formas hoy am db bad falla hbad with h | ⟨l, h⟩ | h <;>
      subst h <;>
      simp [manejar_mensaje_wa, hS, hLlm, hres,
            actualizarContacto_esperando, actualizarContacto_pendiente,
            actualizarContacto_desde]

def c6g1 : Draft := ⟨"2026-10-15", "10:00", 1, "Ana Perez", "11"⟩

def c6g2 : Draft := ⟨"2026-10-15", "11:30", 2, "Ana Perez", "11"⟩

def c6g3 : Draft := ⟨"2026-10-15", "13:00", 1, "Ana Perez", "11"⟩

/-- A snapshot where court 2 is taken on 2026-10-15 at 11:30. -/
def c6db : Except Unit (List Reserva) :=
  Except.ok [⟨9, "2026-10-15", "11:30", 2, "Bob Gomez", "22", "confirmada",
             none⟩]

/-- Witness for `lote_primer_fallo_aborta`: in the batch `[g1, g2, g3]` the
second draft wants the taken court 2, so the whole batch is rejected with
that draft's court-unavailable outcome and the idle session records nothing. -/
theorem lote_primer_fallo_aborta_witness :
    ejecutar_accion "2026-10-14" 600 c6db
        (.preparar_multiples_reservas [c6g1, c6g2, c6g3])
      = .canchaNoDisponibleLote 2 "11:30" [1, 3, 4] ∧
    (manejar_mensaje_wa "2026-10-14" 600 0 c6db
        (fun _ => ("ok", some (.preparar_multiples_reservas [c6g1, c6g2, c6g3])))
        ⟨false, none, none, none, none, []⟩
        "tres turnos").sesion.esperando_comprobante = false ∧
    (manejar_mensaje_wa "2026-10-14" 600 0 c6db
        (fun _ => ("ok", some (.preparar_multiples_reservas [c6g1, c6g2, c6g3])))
        ⟨false, none, none, none, none, []⟩
        "tres turnos").sesion.reserva_pendiente = none ∧
    (manejar_mensaje_wa "2026-10-14" 600 0 c6db
        (fun _ => ("ok", some (.preparar_multiples_reservas [c6g1, c6g2, c6g3])))
        ⟨false, none, none, none, none, []⟩
        "tres turnos").sesion.esperando_desde = none ∧
    (manejar_mensaje_wa "2026-10-14" 600 0 c6db
        (fun _ => ("ok", some (.preparar_multiples_reservas [c6g1, c6g2, c6g3])))
        ⟨false, none, none, none, none, []⟩
        "tres turnos").creadas = [] := by
  simpa using lote_primer_fallo_aborta "2026-10-14" 600 0 c6db
    (fun _ => ("ok", some (.preparar_multiples_reservas [c6g1, c6g2, c6g3])))
    ⟨false, none, none, none, none, []⟩ "tres turnos"
    [c6g1] c6g2 [c6g3] (.canchaNoDisponibleLote 2 "11:30" [1, 3, 4])
    rfl (by decide) (by decide) rfl

-- ── C7 ────────────────────────────────────────────────────────────────────

/-- The session invariant: awaiting proof implies a non-empty pending draft
list and a set awaiting-since timestamp. -/
def invarianteSesion (s : Sesion) : Prop :=
  s.esperando_comprobante = true →
    s.reserva_pendiente.getD [] ≠ [] ∧ s.esperando_desde ≠ none

/-- `ejecutar_accion` reports a ready batch only for a non-empty draft
list. -/
theorem multiples_listas_no_vacia (hoy : String) (am : Nat)
    (db : Except Unit (List Reserva)) (rs : List Draft)
    (h : ejecutar_accion hoy am db (.preparar_multiples_reservas rs)
        = .multiplesReservasListas) : rs ≠ [] := by
  intro hrs
  subst hrs
  simp [ejecutar_accion, validarLote] at h

/-- C7: the invariant "awaiting_proof implies a non-empty pending list and a
set awaiting_since" is preserved by the text handler, the image handler and
the session read (timeout reset included): the two transitions that raise the
awaiting flag store a non-empty draft list together with a timestamp, and the
partial-payment transition only runs with at least two pending drafts, so the
shrunken remainder is non-empty. -/
theorem invariante_sesion_preservada
    (hoy : String) (am : Nat) (ts : Int) (db : Except Unit (List Reserva))
    (llm : List Mensaje → String × Option Accion) (texto : String)
    (descargaOk : Bool) (verificar : Nat → Verif)
    (opDb : Except Unit (List Reserva)) (oracle : Draft → InsertOutcome)
    (ahora : Int) (s : Sesion)
    (hInv : invarianteSesion s) :
    invarianteSesion (manejar_mensaje_wa hoy am ts db llm s texto).sesion ∧
    invarianteSesion
      (manejar_foto_wa descargaOk verificar opDb oracle s).sesion ∧
    invarianteSesion (sesion_get ahora (Except.ok (some s))).sesion := by
  refine ⟨?_, ?_, ?_⟩
  · -- text handler
    by_cases hE : s.esperando_comprobante = true
    · by_cases hc : contieneCancelacion texto
      · simp [manejar_mensaje_wa, hE, hc, invarianteSesion]
      · simpa [manejar_mensaje_wa, hE, hc] using hInv
    · have hE' : s.esperando_comprobante = false := by
        cases hEq : s.esperando_comprobante
        · rfl
        · exact absurd hEq hE
      rcases hllm : llm (s.historial ++ [.user texto]) with ⟨txt, acc⟩
      cases acc with
      | none => simp [manejar_mensaje_wa, hE', hllm, invarianteSesion]
      | some a =>
          cases a with
          | derivar_humano m =>
              simp [manejar_mensaje_wa, hE', hllm, ejecutar_accion,
                    invarianteSesion, actualizarContacto_esperando]
          | preparar_reserva d =>
              cases hr : ejecutar_accion hoy am db (.preparar_reserva d) <;>
                simp [manejar_mensaje_wa, hE', hllm, hr, invarianteSesion,
                      actualizarContacto_esperando]
          | preparar_multiples_reservas rs =>
              cases rs with
              | nil =>
                  simp [manejar_mensaje_wa, hE', hllm, ejecutar_accion,
                        invarianteSesion, actualizarContacto_esperando]
              | cons q qs =>
                  cases hr : ejecutar_accion hoy am db
                      (.preparar_multiples_reservas (q :: qs)) <;>
                    simp [manejar_mensaje_wa, hE', hllm, hr, invarianteSesion,
                          actualizarContacto_esperando]
  · -- image handler
    by_cases hE : s.esperando_comprobante = true
    · cases hp : s.reserva_pendiente with
      | none =>
          rw [manejar_foto_wa, hE, hp]
          simp [invarianteSesion]
      | some l =>
          cases l with
          | nil =>
              rw [manejar_foto_wa, hE, hp]
              simp [invarianteSesion]
          | cons p ps =>
              have hdesde : s.esperando_desde ≠ none := (hInv hE).2
              rw [manejar_foto_wa, hE, hp]
              simp only [if_true]
              split
              · -- download failed: session unchanged
                exact hInv
              · split
                · -- illegible: unchanged
                  exact hInv
                · split
                  · -- valid verdict
                    split
                    · -- reused reference: unchanged
                      exact hInv
                    · split
                      · -- full-commit side
                        split
                        · -- duplicate reported: unchanged
                          exact hInv
                        · split
                          · -- nothing created: unchanged
                            exact hInv
                          · -- one created: flag reset
                            simp [invarianteSesion]
                          · -- several created: flag reset
                            simp [invarianteSesion]
                      · -- partial-payment side: needs a second pending draft
                        rename_i hcond
                        cases ps with
                        | nil => exact absurd (Or.inr rfl) hcond
                        | cons q qs =>
                            generalize crear_reserva oracle p
                              (resultadoVerificacion verificar
                                (p :: q :: qs).length).numero_operacion = res1
                            cases res1 <;> simp [invarianteSesion, hE, hdesde]
                  · -- invalid verdict: both reply branches leave it unchanged
                    split
                    · exact hInv
                    · exact hInv
    · have hE2 : s.esperando_comprobante = false := by
        cases hEq : s.esperando_comprobante
        · rfl
        · exact absurd hEq hE
      rw [manejar_foto_wa, hE2]
      simpa using hInv
  · -- session read
    cases hd : s.esperando_desde with
    | none => simpa [sesion_get, hd] using hInv
    | some t =>
        simp only [sesion_get, hd]
        split
        · simp [invarianteSesion]
        · simpa using hInv

/-- Witness for `invariante_sesion_preservada` at a concrete awaiting session
with one pending draft and a set timestamp. -/
theorem invariante_sesion_preservada_witness :
    invarianteSesion (manejar_mensaje_wa "2026-10-14" 600 0 (Except.ok [])
      (fun _ => ("", none))
      ⟨true, some [c2dA], none, none, some 0, []⟩ "hola").sesion ∧
    invarianteSesion (manejar_foto_wa true c2verificar (Except.ok []) c2oracle
      ⟨true, some [c2dA], none, none, some 0, []⟩).sesion ∧
    invarianteSesion (sesion_get 0 (Except.ok (some
      ⟨true, some [c2dA], none, none, some 0, []⟩))).sesion :=
  invariante_sesion_preservada "2026-10-14" 600 0 (Except.ok [])
    (fun _ => ("", none)) "hola" true c2verificar (Except.ok []) c2oracle 0
    ⟨true, some [c2dA], none, none, some 0, []⟩
    (fun _ => ⟨by decide, by decide⟩)
